import Mathlib

/-!
Shallow embedding of the multi-language process-orchestration core of the
Universal Multi-Language Compiler (UMLC) repository, together with theorems
settling the frozen claims about it.

The embedded code lives in `src/backend/compiler_manager.py` (class
`CompilerManager`) and `src/main.py` (input rewriting).  Child processes are
modelled by a `ProcBehavior` record describing what the spawned process would
do (exit status, wall-clock duration, raw output lines, spawn failure);
the executor and driver functions are direct translations of the Python
control flow, returning the outcome dictionary and the trace of commands
issued.
-/

namespace UMLC

/-! ## Python string primitives used by the source -/

/-- Whitespace characters recognised by Python's `str.strip()`
(for the ASCII range the source produces). -/
def isPySpace (c : Char) : Bool :=
  c == ' ' || c == '\t' || c == '\n' || c == '\r' || c == '\x0b' || c == '\x0c'

/-- Left strip on character lists. -/
def lstripL (l : List Char) : List Char := l.dropWhile isPySpace

/-- Right strip on character lists. -/
def rstripL (l : List Char) : List Char := (l.reverse.dropWhile isPySpace).reverse

/-- Python `str.strip()`: remove leading and trailing whitespace. -/
def pyStrip (s : String) : String := ⟨rstripL (lstripL s.data)⟩

/-- Python's `needle in hay` test on character lists: `needle` occurs as a
contiguous run somewhere in `hay`. -/
def strContainsL (needle : List Char) : List Char → Bool
  | [] => needle.isEmpty
  | c :: rest => needle.isPrefixOf (c :: rest) || strContainsL needle rest

/-- Python's `needle in hay` substring test on strings. -/
def strContains (hay needle : String) : Bool := strContainsL needle.data hay.data

/-- Auxiliary for `str.replace`: scan the string left to right, replacing each
non-overlapping occurrence of `pat` by `rep`; `fuel` bounds the recursion and
is instantiated with the length of the scanned string. -/
def replaceLAux (pat rep : List Char) : Nat → List Char → List Char
  | _, [] => []
  | 0, s => s
  | fuel + 1, c :: rest =>
    if pat ≠ [] ∧ pat.isPrefixOf (c :: rest) = true then
      rep ++ replaceLAux pat rep fuel (rest.drop (pat.length - 1))
    else
      c :: replaceLAux pat rep fuel rest

/-- Python `s.replace(pat, rep)` (all occurrences) on character lists. -/
def replaceL (s pat rep : List Char) : List Char := replaceLAux pat rep s.length s

/-- Python `s.replace(pat, rep)` on strings. -/
def replaceStr (s pat rep : String) : String := ⟨replaceL s.data pat.data rep.data⟩

/-- Python `pathlib.Path(...).stem`: the file name without its last suffix;
a dot at position 0 or at the very end does not start a suffix. -/
def pathStem (name : String) : String :=
  match (name.data.reverse.findIdx? (fun x => x == '.')).map
      (fun j => name.data.length - 1 - j) with
  | none => name
  | some i => if 0 < i ∧ i < name.data.length - 1 then ⟨name.data.take i⟩ else name

/-- Python `pathlib.Path(s).parent` for slash-separated paths:
drop the last `/`-component. -/
def pathParent (s : String) : String :=
  ⟨((s.data.reverse.dropWhile (fun c => c != '/')).drop 1).reverse⟩

/-! ## Data model: paths, outcomes, process behaviours -/

/-- A file path split into its directory part and its final name,
mirroring how the source only ever combines a directory with a file name. -/
structure Pth where
  dir : String
  base : String
deriving DecidableEq

/-- Render a `Pth` the way `str(path)` does. -/
def pthStr (p : Pth) : String := p.dir ++ "/" ++ p.base

/-- The outcome dictionary returned by `CompilerManager` methods.
Fields absent from a given Python dict are `none`. -/
structure Outcome where
  success : Bool
  error : Option String := none
  output : Option String := none
  error_output : Option String := none
  message : Option String := none
  compiled_files : Option (List String) := none
  executable : Option String := none
  temp_dir : Option String := none
deriving DecidableEq

/-- Behaviour of one spawned child process: what `subprocess.Popen` and the
subsequent wait would observe.  `duration` is the wall-clock run time in
seconds; `spawnFails` models `FileNotFoundError` raised by `Popen` (with
`binaryName` the missing binary); `execFails` models any other exception
caught by the broad `except Exception` handler. -/
structure ProcBehavior where
  exitCode : Int
  duration : Nat
  stdoutLines : List String
  stderrLines : List String
  spawnFails : Bool := false
  binaryName : String := ""
  execFails : Option String := none
deriving DecidableEq

/-- One command invocation issued through `_execute_command`:
the argument vector and the working directory. -/
structure Invocation where
  argv : List String
  cwd : String
deriving DecidableEq

/-- Child-process behaviours for one compile/run request: the behaviour of
the compile-step child and of the run-step child, plus the Python runner's
file-read failure mode (`open(file_path)` raising). -/
structure ExecEnv where
  compileProc : ProcBehavior
  runProc : ProcBehavior
  readFails : Bool := false
  readErr : String := ""
deriving DecidableEq

/-! ## The command executor (`_execute_command`, lines 391-468) -/

/-- The `read_output` reader thread body (lines 409-418 and 323-332):
each line is `strip()`ped and appended only if non-empty. -/
def read_output (raw : List String) : List String :=
  (raw.map pyStrip).filter (fun l => l != "")

/-- Python `sep.join(list)` on character lists. -/
def joinSepL (sep : List Char) : List String → List Char
  | [] => []
  | [s] => s.data
  | s :: rest => s.data ++ sep ++ joinSepL sep rest

/-- Join captured lines the way the source does (`'\n'.join(lines)`). -/
def joinLines (ls : List String) : String := ⟨joinSepL ['\n'] ls⟩

/-- The failure message built for a nonzero exit (lines 449-451). -/
def failDetail (rc : Int) (errorLines : List String) : String :=
  let base := "Command failed with return code " ++ toString rc
  if errorLines.isEmpty then base
  else base ++ "\nError output: " ++ String.mk (joinSepL [' '] errorLines)

/-- Common tail of both executors (lines 442-457 and 363-378): build the
outcome dictionary from the return code and the captured lines. -/
def finishOutcome (rc : Int) (outL errL : List String) : Outcome :=
  if rc = 0 then
    { success := true
      output := some (joinLines outL)
      error_output := some (joinLines errL) }
  else
    { success := false
      error := some (failDetail rc errL)
      output := some (joinLines outL)
      error_output := some (joinLines errL) }

/-- `_execute_command` (lines 391-468): spawn, drain both streams, then
`process.wait()` with no timeout, and assemble the outcome. -/
def executeCommand (p : ProcBehavior) : Outcome :=
  if p.spawnFails then
    { success := false, error := some ("Command not found: " ++ p.binaryName) }
  else
    match p.execFails with
    | some m => { success := false, error := some ("Execution error: " ++ m) }
    | none => finishOutcome p.exitCode (read_output p.stdoutLines) (read_output p.stderrLines)

/-- Wall-clock seconds `_execute_command` spends blocked on the child:
`process.wait()` carries no timeout argument, so it blocks for the child's
full duration. -/
def executeCommandWait (p : ProcBehavior) : Nat :=
  if p.spawnFails then 0 else p.duration

/-! ## The interactive Python runner (`_run_python_interactive`, lines 261-389) -/

/-- The static input-call scan (line 276): `'input(' in content`. -/
def has_input (content : String) : Bool := strContains content "input("

/-- How the child's standard input is configured at spawn. -/
inductive StdinConfig
  | inherited
  | closedPipe
deriving DecidableEq

/-- The stdin arrangement `_run_python_interactive` passes to `Popen`
(lines 290-317): when the scan fires, `stdin=subprocess.PIPE` is requested and
the pipe is closed immediately after spawn; otherwise no `stdin` argument is
given at all. -/
def pythonStdinConfig (content : String) : StdinConfig :=
  if has_input content then StdinConfig.closedPipe else StdinConfig.inherited

/-- `_run_python_interactive` (lines 261-389): read the file, spawn the
interpreter, drain both streams, `process.wait(timeout=10)`; on expiry kill
the child and return the dedicated timed-out outcome. -/
def run_python_interactive (content : String) (env : ExecEnv) : Outcome :=
  if env.readFails then
    { success := false, error := some ("Failed to read file: " ++ env.readErr) }
  else
    let p := env.runProc
    if p.spawnFails then
      { success := false, error := some ("Command not found: " ++ p.binaryName) }
    else
      match p.execFails with
      | some m => { success := false, error := some ("Execution error: " ++ m) }
      | none =>
        if p.duration > 10 then
          { success := false, error := some "Program execution timed out (10 seconds)" }
        else
          finishOutcome p.exitCode (read_output p.stdoutLines) (read_output p.stderrLines)

/-- Wall-clock seconds `_run_python_interactive` spends blocked on the child:
`process.wait(timeout=10)` returns when the child exits or the 10-second
ceiling expires, whichever is first. -/
def runPythonWait (p : ProcBehavior) : Nat := min p.duration 10

/-! ## The language registry (`supported_languages`, lines 20-51) -/

/-- One toolchain profile from the `supported_languages` dictionary. -/
structure LangConfig where
  ext : String
  compile_cmd : Option (List String)
  runCmd : List String
  temp_dir : Bool
deriving DecidableEq

/-- The interpreter path `sys.executable` of the hosting Python process. -/
def sys_executable : String := "python3"

/-- The `supported_languages` table (lines 20-51). -/
def supported_languages : List (String × LangConfig) :=
  [("python",
     { ext := ".py", compile_cmd := none,
       runCmd := [sys_executable, "\x7bfile\x7d"], temp_dir := true }),
   ("c",
     { ext := ".c",
       compile_cmd := some ["gcc", "\x7bfile\x7d", "-o", "\x7boutput\x7d"],
       runCmd := ["\x7boutput\x7d"], temp_dir := true }),
   ("cpp",
     { ext := ".cpp",
       compile_cmd := some ["g++", "\x7bfile\x7d", "-o", "\x7boutput\x7d"],
       runCmd := ["\x7boutput\x7d"], temp_dir := true }),
   ("java",
     { ext := ".java", compile_cmd := some ["javac", "\x7bfile\x7d"],
       runCmd := ["java", "\x7bclass_name\x7d"], temp_dir := false }),
   ("javascript",
     { ext := ".js", compile_cmd := none,
       runCmd := ["node", "\x7bfile\x7d"], temp_dir := true })]

/-- Placeholder substitution in a compile-command part (lines 213-217):
`'{file}'` is replaced by the source path, otherwise `'{output}'` by the
output path, otherwise the part is kept. -/
def substCompilePart (filePath outputPath : String) (part : String) : String :=
  if strContains part "\x7bfile\x7d" then
    replaceStr part "\x7bfile\x7d" filePath
  else if strContains part "\x7boutput\x7d" then
    replaceStr part "\x7boutput\x7d" outputPath
  else part

/-! ## Toolchain drivers (lines 152-259) -/

/-- `_compile_compiled` (lines 203-229): compile C/C++ into a fresh temp
directory `t`, the artifact named after the source stem.  Returns the outcome
and the trace of commands issued. -/
def compile_compiled (src : Pth) (language : String) (t : String) (env : ExecEnv) :
    Outcome × List Invocation :=
  let output_name := pathStem src.base
  let tmpl := ((supported_languages.lookup language).map
    (fun cfg => cfg.compile_cmd.getD [])).getD []
  let compile_cmd := tmpl.map (substCompilePart (pthStr src) (t ++ "/" ++ output_name))
  let result := executeCommand env.compileProc
  let inv : Invocation := { argv := compile_cmd, cwd := t }
  if result.success then
    ({ success := true, executable := some (t ++ "/" ++ output_name),
       temp_dir := some t }, [inv])
  else (result, [inv])

/-- `_run_compiled` (lines 231-243): compile first; on failure return the
compile outcome unchanged, otherwise execute the artifact as a zero-argument
command in its own directory. -/
def run_compiled (src : Pth) (language : String) (t : String) (env : ExecEnv) :
    Outcome × List Invocation :=
  let res := compile_compiled src language t env
  if res.fst.success then
    let exe := res.fst.executable.getD ""
    (executeCommand env.runProc, res.snd ++ [{ argv := [exe], cwd := pathParent exe }])
  else res

/-- `_compile_java` (lines 152-178): copy the source into a fresh temp
directory `t` and compile it there. -/
def compile_java (src : Pth) (t : String) (env : ExecEnv) : Outcome × List Invocation :=
  let file_name := pathStem src.base
  let java_file : Pth := { dir := t, base := src.base }
  let compile_cmd := ["javac", pthStr java_file]
  let result := executeCommand env.compileProc
  let inv : Invocation := { argv := compile_cmd, cwd := t }
  if result.success then
    ({ success := true,
       compiled_files := some [t ++ "/" ++ file_name ++ ".class"],
       temp_dir := some t }, [inv])
  else (result, [inv])

/-- `_run_java` (lines 180-201): copy the source into temp directory `t1`,
compile it (which itself uses a fresh temp directory `t2`), then on success
run `java` with the stem of the original source as the class name, in `t1`. -/
def run_java (src : Pth) (t1 t2 : String) (env : ExecEnv) : Outcome × List Invocation :=
  let file_name := pathStem src.base
  let java_file : Pth := { dir := t1, base := src.base }
  let res := compile_java java_file t2 env
  if res.fst.success then
    let runCmdArgs := ["java", file_name]
    (executeCommand env.runProc, res.snd ++ [{ argv := runCmdArgs, cwd := t1 }])
  else res

/-- `_run_interpreted` (lines 245-259): Python goes through the interactive
runner; other interpreted languages resolve the run template against the
source file and execute in the source file's directory. -/
def run_interpreted (src : Pth) (language content : String) (env : ExecEnv) :
    Outcome × List Invocation :=
  if language = "python" then
    (run_python_interactive content env,
     [{ argv := [sys_executable, "-u", pthStr src], cwd := src.dir }])
  else
    let tmpl := ((supported_languages.lookup language).map
      (fun cfg => cfg.runCmd)).getD []
    let runCmdArgs := tmpl.map (fun part =>
      if strContains part "\x7bfile\x7d" then
        replaceStr part "\x7bfile\x7d" (pthStr src)
      else part)
    (executeCommand env.runProc, [{ argv := runCmdArgs, cwd := src.dir }])

/-! ## Top-level operations (`compile_code` / `run_code`, lines 98-150) -/

/-- The outcome returned for a language id missing from the registry
(lines 100-104 and 129-133). -/
def unsupportedOutcome (language : String) : Outcome :=
  { success := false, error := some ("Unsupported language: " ++ language) }

/-- `compile_code` (lines 98-125): registry check, then per-language
dispatch; interpreted languages compile trivially. -/
def compile_code (src : Pth) (language : String) (t : String) (env : ExecEnv) :
    Outcome × List Invocation :=
  if (supported_languages.lookup language).isNone then
    (unsupportedOutcome language, [])
  else if language = "java" then compile_java src t env
  else if language = "c" ∨ language = "cpp" then compile_compiled src language t env
  else
    ({ success := true,
       message := some "No compilation needed for interpreted language" }, [])

/-- `run_code` (lines 127-150): registry check, then per-language dispatch. -/
def run_code (src : Pth) (language content : String) (t1 t2 : String) (env : ExecEnv) :
    Outcome × List Invocation :=
  if (supported_languages.lookup language).isNone then
    (unsupportedOutcome language, [])
  else if language = "java" then run_java src t1 t2 env
  else if language = "c" ∨ language = "cpp" then run_compiled src language t1 env
  else run_interpreted src language content env

/-! ## Input rewriting in the GUI layer (`main.py`, lines 438-464) -/

/-- Python `s.split('\n')` on character lists: cut at every newline,
keeping empty pieces. -/
def splitLinesL : List Char → List (List Char)
  | [] => [[]]
  | c :: rest =>
    match splitLinesL rest with
    | [] => [[]]
    | h :: t => if c = '\n' then [] :: h :: t else (c :: h) :: t

/-- Python `s.split('\n')` on strings. -/
def pySplitLines (s : String) : List String := (splitLinesL s.data).map fun l => ⟨l⟩

/-- Python `s.startswith(pre)`. -/
def startswith (s pre : String) : Bool := pre.data.isPrefixOf s.data

/-- Python `repr` of a string rendered in its single-quote form, as used by
`_create_input_version` on the user-supplied input lines. -/
def pyReprChar (c : Char) : String :=
  if c = '\\' then "\\\\"
  else if c = '\'' then "\\\x27"
  else if c = '\n' then "\\n"
  else if c = '\r' then "\\r"
  else if c = '\t' then "\\t"
  else String.singleton c

/-- Python `repr(s)` for a string (single-quote form). -/
def pyRepr (s : String) : String :=
  "\x27" ++ String.join (s.data.map pyReprChar) ++ "\x27"

/-- One step of `_create_input_version`'s loop (lines 447-462): rewrite a
line containing `input(` (and not commented out), consuming the next supplied
input line, or an empty string once the supplied lines run out. -/
def processLine (input_lines : List String) (line : String) (input_count : Nat) :
    String × Nat :=
  if strContains line "input(" && !(startswith (pyStrip line) "#") then
    let ic := input_count + 1
    if ic ≤ input_lines.length then
      let input_value := pyRepr (input_lines.getD (ic - 1) "")
      (replaceStr line "input(" ("input(" ++ input_value ++ ") # Original: "), ic)
    else
      (replaceStr line "input(" "input(\"\") # Original: ", ic)
  else (line, input_count)

/-- `_create_input_version` (lines 438-464): rewrite every uncommented
`input(` call of the program so that the corresponding user-supplied line
appears as the call's argument, commenting out the original rest of the
line. -/
def create_input_version (content user_input : String) : String :=
  let lines := pySplitLines content
  let input_lines := if pyStrip user_input ≠ "" then pySplitLines user_input else [""]
  let step := fun (acc : List String × Nat) (line : String) =>
    let r := processLine input_lines line acc.snd
    (acc.fst ++ [r.fst], r.snd)
  joinLines (lines.foldl step ([], 0)).fst

/-! ## Auxiliary lemmas -/

theorem dropWhile_head_not {α : Type} (p : α → Bool) :
    ∀ (l : List α) (c : α), (l.dropWhile p).head? = some c → p c = false := by
  intro l
  induction l with
  | nil => intro c h; simp [List.dropWhile] at h
  | cons a t ih =>
    intro c h
    by_cases hpa : p a = true
    · rw [List.dropWhile_cons, if_pos hpa] at h
      exact ih c h
    · rw [List.dropWhile_cons, if_neg hpa] at h
      cases h
      simpa using hpa

theorem dropWhile_of_head_not {α : Type} (p : α → Bool) (l : List α)
    (h : ∀ c, l.head? = some c → p c = false) : l.dropWhile p = l := by
  cases l with
  | nil => rfl
  | cons a t => rw [List.dropWhile_cons, if_neg (by simp [h a rfl])]

theorem dropWhile_idem {α : Type} (p : α → Bool) (l : List α) :
    (l.dropWhile p).dropWhile p = l.dropWhile p :=
  dropWhile_of_head_not p _ (fun c hc => dropWhile_head_not p l c hc)

theorem dropWhile_is_suffix {α : Type} (p : α → Bool) (l : List α) :
    ∃ s, s ++ l.dropWhile p = l := by
  induction l with
  | nil => exact ⟨[], rfl⟩
  | cons a t ih =>
    by_cases hpa : p a = true
    · obtain ⟨s, hs⟩ := ih
      exact ⟨a :: s, by rw [List.dropWhile_cons, if_pos hpa, List.cons_append, hs]⟩
    · exact ⟨[], by rw [List.dropWhile_cons, if_neg hpa, List.nil_append]⟩

theorem rstripL_head? (l : List Char) (c : Char) (h : (rstripL l).head? = some c) :
    l.head? = some c := by
  obtain ⟨s, hs⟩ := dropWhile_is_suffix isPySpace l.reverse
  have hl : rstripL l ++ s.reverse = l := by
    have h2 := congrArg List.reverse hs
    rw [List.reverse_append, List.reverse_reverse] at h2
    exact h2
  cases hr : rstripL l with
  | nil => rw [hr] at h; simp at h
  | cons x xs =>
    rw [hr] at h hl
    cases h
    rw [← hl]
    rfl

theorem rstripL_idem (l : List Char) : rstripL (rstripL l) = rstripL l := by
  unfold rstripL
  rw [List.reverse_reverse, dropWhile_idem]

theorem pyStrip_idem (s : String) : pyStrip (pyStrip s) = pyStrip s := by
  have hA : lstripL (rstripL (lstripL s.data)) = rstripL (lstripL s.data) := by
    apply dropWhile_of_head_not
    intro c hc
    exact dropWhile_head_not isPySpace s.data c (rstripL_head? _ c hc)
  show String.mk (rstripL (lstripL (rstripL (lstripL s.data)))) =
    String.mk (rstripL (lstripL s.data))
  rw [hA, rstripL_idem]

theorem dropWhile_append_of_all {α : Type} (p : α → Bool) (l₁ l₂ : List α)
    (h : ∀ a ∈ l₁, p a = true) : (l₁ ++ l₂).dropWhile p = l₂.dropWhile p := by
  induction l₁ with
  | nil => rfl
  | cons a t ih =>
    rw [List.cons_append, List.dropWhile_cons, if_pos (h a (by simp))]
    exact ih (fun b hb => h b (by simp [hb]))

theorem pathParent_append (t st : String) (h : ∀ c ∈ st.data, (c == '/') = false) :
    pathParent (t ++ "/" ++ st) = t := by
  have hd : (t ++ "/" ++ st).data = (t.data ++ ['/']) ++ st.data := by
    rw [String.data_append, String.data_append]
  unfold pathParent
  rw [hd, List.reverse_append, List.reverse_append]
  rw [dropWhile_append_of_all _ _ _ (by
    intro a ha
    rw [List.mem_reverse] at ha
    show (a != '/') = true
    rw [bne_iff_ne]
    exact beq_eq_false_iff_ne.mp (h a ha))]
  show String.mk ((List.dropWhile _ (['/'].reverse ++ t.data.reverse)).drop 1).reverse = t
  rw [show (['/'] : List Char).reverse = ['/'] from rfl]
  rw [List.cons_append, List.dropWhile_cons, if_neg (by simp)]
  rw [List.nil_append, List.drop_one, List.tail_cons, List.reverse_reverse]

theorem pathStem_data_subset (b : String) : (pathStem b).data ⊆ b.data := by
  unfold pathStem
  split
  · exact fun c hc => hc
  · split
    · exact List.take_subset _ _
    · exact fun c hc => hc

theorem pathStem_no_slash (b : String) (h : ∀ c ∈ b.data, (c == '/') = false) :
    ∀ c ∈ (pathStem b).data, (c == '/') = false :=
  fun c hc => h c (pathStem_data_subset b hc)

theorem isPrefixOf_self {α : Type} [BEq α] [LawfulBEq α] (l : List α) :
    l.isPrefixOf l = true := by
  induction l with
  | nil => rfl
  | cons a t ih => simp [List.isPrefixOf, ih]

theorem replaceStr_whole (pat r : String) (h : pat.data ≠ []) :
    replaceStr pat pat r = r := by
  cases pat with
  | mk pd =>
    cases r with
    | mk rd =>
      cases pd with
      | nil => exact absurd rfl h
      | cons c cs =>
        show String.mk (replaceLAux (c :: cs) rd (c :: cs).length (c :: cs)) = String.mk rd
        rw [show (c :: cs).length = cs.length + 1 from rfl]
        rw [replaceLAux]
        rw [if_pos ⟨List.cons_ne_nil c cs, isPrefixOf_self (c :: cs)⟩]
        rw [show (c :: cs).length - 1 = cs.length from rfl, List.drop_length]
        rw [show replaceLAux (c :: cs) rd cs.length [] = [] from by cases cs <;> rfl]
        rw [List.append_nil]

theorem substCompilePart_lit (fp op part : String)
    (h1 : strContains part "\x7bfile\x7d" = false)
    (h2 : strContains part "\x7boutput\x7d" = false) :
    substCompilePart fp op part = part := by
  unfold substCompilePart
  rw [if_neg (by simp [h1]), if_neg (by simp [h2])]

theorem substCompilePart_file (fp op : String) :
    substCompilePart fp op "\x7bfile\x7d" = fp := by
  unfold substCompilePart
  rw [if_pos (by decide)]
  exact replaceStr_whole _ _ (by decide)

theorem substCompilePart_output (fp op : String) :
    substCompilePart fp op "\x7boutput\x7d" = op := by
  unfold substCompilePart
  rw [if_neg (by decide), if_pos (by decide)]
  exact replaceStr_whole _ _ (by decide)

/-! ## Concrete sample behaviours used by witnesses and counterexamples -/

/-- A child that exits 0 after one second with no output. -/
def procOkQuick : ProcBehavior :=
  { exitCode := 0, duration := 1, stdoutLines := [], stderrLines := [] }

/-- A child that exits 1 after one second with a compile diagnostic. -/
def procFailQuick : ProcBehavior :=
  { exitCode := 1, duration := 1, stdoutLines := [],
    stderrLines := ["error: expected declaration\n"] }

/-- A child that runs for 9999 seconds and then exits 0 with no output. -/
def procLong : ProcBehavior :=
  { exitCode := 0, duration := 9999, stdoutLines := [], stderrLines := [] }

/-- The observable behaviour of the rewritten hello script under a closed
stdin: the prompt text is printed, then `input()` raises `EOFError` and the
interpreter exits nonzero. -/
def procEOFCrash : ProcBehavior :=
  { exitCode := 1, duration := 0, stdoutLines := ["Alice"],
    stderrLines := ["EOFError: EOF when reading a line\n"] }

/-- Compile succeeds quickly; the run-step child runs 9999 seconds. -/
def envLong : ExecEnv := { compileProc := procOkQuick, runProc := procLong }

/-- Both compile and run children exit 0 quickly. -/
def envOk : ExecEnv := { compileProc := procOkQuick, runProc := procOkQuick }

/-- The compile-step child fails. -/
def envCompileFail : ExecEnv := { compileProc := procFailQuick, runProc := procOkQuick }

/-- A sample C source path. -/
def srcMainC : Pth := { dir := "/home/u", base := "main.c" }

/-- A sample Java source path. -/
def srcMainJava : Pth := { dir := "/home/u", base := "Main.java" }

/-- The script of the supplied-input example: read one line, greet it. -/
def helloScript : String :=
  "name = input()\nprint(\x22Hello, \x22 + name + \x22!\x22)"

/-! ## Claim theorems -/

/-- C1: for both executors, the outcome's success flag is true exactly when
the child exited with status zero (before the Python runner's timeout);
stderr content never influences the flag, and a zero-exit child with no
output yields a success outcome with empty captured output. -/
theorem success_iff_zero_exit (p : ProcBehavior) (content : String) (env : ExecEnv)
    (hs : p.spawnFails = false) (he : p.execFails = none) :
    (((executeCommand p).success = true) ↔ p.exitCode = 0) ∧
    (env.readFails = false → env.runProc.spawnFails = false →
      env.runProc.execFails = none → env.runProc.duration ≤ 10 →
      (((run_python_interactive content env).success = true) ↔
        env.runProc.exitCode = 0)) ∧
    (p.exitCode = 0 → p.stdoutLines = [] → p.stderrLines = [] →
      executeCommand p =
        { success := true, output := some "", error_output := some "" }) := by
  refine ⟨?_, ?_, ?_⟩
  · rw [executeCommand, if_neg (by simp [hs]), he]
    rw [finishOutcome]
    by_cases hrc : p.exitCode = 0
    · rw [if_pos hrc]; simpa using hrc
    · rw [if_neg hrc]; simpa using hrc
  · intro h1 h2 h3 h4
    rw [run_python_interactive, if_neg (by simp [h1]), if_neg (by simp [h2]), h3]
    rw [if_neg (show ¬env.runProc.duration > 10 by omega)]
    rw [finishOutcome]
    by_cases hrc : env.runProc.exitCode = 0
    · rw [if_pos hrc]; simpa using hrc
    · rw [if_neg hrc]; simpa using hrc
  · intro h0 hout herr
    rw [executeCommand, if_neg (by simp [hs]), he, hout, herr]
    rw [finishOutcome, if_pos h0]
    rfl

/-- C1 witness: a quick zero-exit silent child yields the success outcome. -/
theorem success_iff_zero_exit_quick :
    executeCommand procOkQuick =
      { success := true, output := some "", error_output := some "" } :=
  (success_iff_zero_exit procOkQuick "" envOk rfl rfl).2.2 rfl rfl rfl

/-- C2 counterexample: a child that runs for 9999 seconds through
`_execute_command` (here: the run step of a C program) is never terminated at
the 10-second mark — the executor waits the full 9999 seconds and returns the
child's ordinary success outcome, not a timed-out failure. -/
theorem no_timeout_in_execute_command :
    10 < executeCommandWait procLong ∧
    executeCommand procLong =
      { success := true, output := some "", error_output := some "" } ∧
    (run_code srcMainC "c" "" "/t1" "/t2" envLong).fst =
      { success := true, output := some "", error_output := some "" } := by
  refine ⟨by decide, by decide, by decide⟩

/-- C2 amended: only `_run_python_interactive` enforces the 10-second
ceiling — it kills an over-running child and returns the dedicated timed-out
outcome, waiting at most 10 seconds — while `_execute_command`, used by every
other compile and run invocation, waits for the child's full duration and
returns the child's own outcome whatever that duration is. -/
theorem timeout_only_in_python_runner (content : String) (env : ExecEnv)
    (p : ProcBehavior) (d : Nat) :
    executeCommandWait p = (if p.spawnFails then 0 else p.duration) ∧
    executeCommand { p with duration := d } = executeCommand p ∧
    (env.readFails = false → env.runProc.spawnFails = false →
      env.runProc.execFails = none → 10 < env.runProc.duration →
      run_python_interactive content env =
        { success := false,
          error := some "Program execution timed out (10 seconds)" } ∧
      runPythonWait env.runProc = 10) := by
  refine ⟨rfl, rfl, ?_⟩
  intro h1 h2 h3 h4
  constructor
  · rw [run_python_interactive, if_neg (by simp [h1]), if_neg (by simp [h2]), h3]
    rw [if_pos (by omega)]
  · rw [runPythonWait]
    omega

/-- C2 amended witness: the Python runner returns the timed-out outcome for
the 9999-second child. -/
theorem timeout_only_in_python_runner_long :
    run_python_interactive "while True: pass" envLong =
      { success := false,
        error := some "Program execution timed out (10 seconds)" } :=
  ((timeout_only_in_python_runner "while True: pass" envLong procOkQuick 0).2.2
    rfl rfl rfl (by decide)).1

/-- C9: Python input detection is the substring scan `'input(' in content`
(firing also inside comments and string literals), and exactly when it fires
the child's stdin is a pipe closed immediately after spawn; otherwise no
stdin pipe is provided. -/
theorem input_detection_is_substring_scan (content : String) :
    has_input content = strContains content "input(" ∧
    (pythonStdinConfig content = StdinConfig.closedPipe ↔
      strContains content "input(" = true) ∧
    (pythonStdinConfig content = StdinConfig.inherited ↔
      strContains content "input(" = false) ∧
    pythonStdinConfig "# TODO input( appears only in this comment" =
      StdinConfig.closedPipe ∧
    pythonStdinConfig "s = \x22input(\x22" = StdinConfig.closedPipe ∧
    pythonStdinConfig "print(42)" = StdinConfig.inherited := by
  refine ⟨rfl, ?_, ?_, by decide, by decide, by decide⟩
  · by_cases h : strContains content "input(" = true <;>
      simp [pythonStdinConfig, has_input, h]
  · by_cases h : strContains content "input(" = true <;>
      simp [pythonStdinConfig, has_input, h]

/-- C10: every captured line is nonempty and already stripped (stripping it
again changes nothing), and blank-only child output is captured as the empty
list. -/
theorem captured_lines_stripped (raw : List String) (l : String)
    (hl : l ∈ read_output raw) :
    (l ≠ "" ∧ pyStrip l = l) ∧
    read_output ["\n", "   \n", "\t \n", ""] = [] ∧
    read_output ["  hello \n"] = ["hello"] := by
  refine ⟨?_, by decide, by decide⟩
  rw [read_output] at hl
  obtain ⟨hmem, hne⟩ := List.mem_filter.mp hl
  obtain ⟨x, _, rfl⟩ := List.mem_map.mp hmem
  exact ⟨by simpa using hne, pyStrip_idem x⟩

/-- C10 witness: the single captured line of `"  hello \n"` is nonempty and
strip-stable. -/
theorem captured_lines_stripped_hello :
    "hello" ≠ "" ∧ pyStrip "hello" = "hello" :=
  (captured_lines_stripped ["  hello \n"] "hello" (by decide)).1

/-- C5 (code-bug evidence): with supplied input "Alice", the GUI rewrites
`name = input()` into `name = input('Alice') # Original: )` — the supplied
text becomes the prompt argument of `input()`, it is never written to the
child's stdin; the rewritten program still matches the `input(` scan, so the
runner closes stdin and the blocking read dies with `EOFError`, a nonzero
exit, and a failure outcome instead of printing `Hello, Alice!`. -/
theorem supplied_input_becomes_prompt_argument :
    create_input_version helloScript "Alice" =
      "name = input(\x27Alice\x27) # Original: )\nprint(\x22Hello, \x22 + name + \x22!\x22)" ∧
    has_input (create_input_version helloScript "Alice") = true ∧
    pythonStdinConfig (create_input_version helloScript "Alice") =
      StdinConfig.closedPipe ∧
    (run_python_interactive (create_input_version helloScript "Alice")
        { compileProc := procEOFCrash, runProc := procEOFCrash }).success = false := by
  refine ⟨by decide, by decide, by decide, by decide⟩

/-- C3: for C and for C++, after a successful compile, `run` executes the
compiled artifact `t/stem` as a one-element (zero-argument) command in the
artifact's own directory `t`, and returns exactly the outcome of that
execution. -/
theorem run_invokes_artifact_directly (src : Pth) (t : String) (env : ExecEnv)
    (hc : (executeCommand env.compileProc).success = true)
    (hb : ∀ c ∈ src.base.data, (c == '/') = false) :
    run_compiled src "c" t env =
      (executeCommand env.runProc,
       [{ argv := ["gcc", pthStr src, "-o", t ++ "/" ++ pathStem src.base], cwd := t },
        { argv := [t ++ "/" ++ pathStem src.base], cwd := t }]) ∧
    run_compiled src "cpp" t env =
      (executeCommand env.runProc,
       [{ argv := ["g++", pthStr src, "-o", t ++ "/" ++ pathStem src.base], cwd := t },
        { argv := [t ++ "/" ++ pathStem src.base], cwd := t }]) := by
  have hcC : compile_compiled src "c" t env =
      ({ success := true, executable := some (t ++ "/" ++ pathStem src.base),
         temp_dir := some t },
       [{ argv := ["gcc", pthStr src, "-o", t ++ "/" ++ pathStem src.base],
          cwd := t }]) := by
    simp only [compile_compiled]
    rw [show (Option.map (fun cfg => cfg.compile_cmd.getD [])
        (List.lookup "c" supported_languages)).getD [] =
        ["gcc", "\x7bfile\x7d", "-o", "\x7boutput\x7d"] from rfl]
    simp only [List.map_cons, List.map_nil]
    rw [substCompilePart_file, substCompilePart_output,
      substCompilePart_lit _ _ "gcc" (by decide) (by decide),
      substCompilePart_lit _ _ "-o" (by decide) (by decide), if_pos hc]
  have hcCpp : compile_compiled src "cpp" t env =
      ({ success := true, executable := some (t ++ "/" ++ pathStem src.base),
         temp_dir := some t },
       [{ argv := ["g++", pthStr src, "-o", t ++ "/" ++ pathStem src.base],
          cwd := t }]) := by
    simp only [compile_compiled]
    rw [show (Option.map (fun cfg => cfg.compile_cmd.getD [])
        (List.lookup "cpp" supported_languages)).getD [] =
        ["g++", "\x7bfile\x7d", "-o", "\x7boutput\x7d"] from rfl]
    simp only [List.map_cons, List.map_nil]
    rw [substCompilePart_file, substCompilePart_output,
      substCompilePart_lit _ _ "g++" (by decide) (by decide),
      substCompilePart_lit _ _ "-o" (by decide) (by decide), if_pos hc]
  have hpar : pathParent (t ++ "/" ++ pathStem src.base) = t :=
    pathParent_append t (pathStem src.base) (pathStem_no_slash src.base hb)
  constructor
  · simp [run_compiled, hcC, hpar]
  · simp [run_compiled, hcCpp, hpar]

/-- C3 witness: running `main.c` with a good toolchain issues `gcc` and then
the artifact `/t1/main` in `/t1`. -/
theorem run_invokes_artifact_directly_main :
    run_compiled srcMainC "c" "/t1" envOk =
      (executeCommand envOk.runProc,
       [{ argv := ["gcc", pthStr srcMainC, "-o",
            "/t1" ++ "/" ++ pathStem srcMainC.base], cwd := "/t1" },
        { argv := ["/t1" ++ "/" ++ pathStem srcMainC.base], cwd := "/t1" }]) :=
  (run_invokes_artifact_directly srcMainC "/t1" envOk (by decide) (by decide)).1

/-- C4: when the compile step fails, `run` (for C/C++ and for Java) returns
the compile step's outcome unchanged, the trace is exactly the single compile
invocation, and no run command is issued. -/
theorem compile_fails_closed (src : Pth) (language : String) (t t1 t2 : String)
    (env : ExecEnv) (hc : (executeCommand env.compileProc).success = false) :
    run_compiled src language t env = compile_compiled src language t env ∧
    (compile_compiled src language t env).fst = executeCommand env.compileProc ∧
    (compile_compiled src language t env).snd.length = 1 ∧
    run_java src t1 t2 env = compile_java { dir := t1, base := src.base } t2 env ∧
    (compile_java { dir := t1, base := src.base } t2 env).fst =
      executeCommand env.compileProc ∧
    (compile_java { dir := t1, base := src.base } t2 env).snd.length = 1 := by
  have hcc : (compile_compiled src language t env).fst = executeCommand env.compileProc := by
    simp only [compile_compiled]
    rw [if_neg (by simp [hc])]
  have hccl : (compile_compiled src language t env).snd.length = 1 := by
    simp only [compile_compiled]
    rw [if_neg (by simp [hc])]
    rfl
  have hcj : (compile_java { dir := t1, base := src.base } t2 env).fst =
      executeCommand env.compileProc := by
    simp only [compile_java]
    rw [if_neg (by simp [hc])]
  have hcjl : (compile_java { dir := t1, base := src.base } t2 env).snd.length = 1 := by
    simp only [compile_java]
    rw [if_neg (by simp [hc])]
    rfl
  refine ⟨?_, hcc, hccl, ?_, hcj, hcjl⟩
  · simp only [run_compiled]
    rw [if_neg (by rw [hcc, hc]; simp)]
  · simp only [run_java]
    rw [if_neg (by rw [hcj, hc]; simp)]

/-- C4 witness: with a failing compiler, running a C file returns the compile
outcome with a single invocation in the trace. -/
theorem compile_fails_closed_main :
    run_compiled srcMainC "c" "/t1" envCompileFail =
      compile_compiled srcMainC "c" "/t1" envCompileFail :=
  (compile_fails_closed srcMainC "c" "/t1" "/ta" "/tb" envCompileFail (by decide)).1

/-- C7: for Java, the unit name passed to the `java` run command is always
the stem of the source file's name, even though the actually compiled file is
the copy living in the temp directories `t1`/`t2`; the copy keeps the same
base name, so its stem agrees with the original's. -/
theorem java_unit_name_is_stem (src : Pth) (t1 t2 : String) (env : ExecEnv)
    (hc : (executeCommand env.compileProc).success = true) :
    (run_java src t1 t2 env).snd =
      [{ argv := ["javac", t2 ++ "/" ++ src.base], cwd := t2 },
       { argv := ["java", pathStem src.base], cwd := t1 }] ∧
    (run_java src t1 t2 env).fst = executeCommand env.runProc ∧
    pathStem (Pth.mk t1 src.base).base = pathStem src.base := by
  have hcj : compile_java { dir := t1, base := src.base } t2 env =
      ({ success := true,
         compiled_files := some [t2 ++ "/" ++ pathStem src.base ++ ".class"],
         temp_dir := some t2 },
       [{ argv := ["javac", t2 ++ "/" ++ src.base], cwd := t2 }]) := by
    simp only [compile_java]
    rw [if_pos hc]
    rfl
  refine ⟨?_, ?_, rfl⟩
  · simp [run_java, hcj]
  · simp [run_java, hcj]

/-- C7 witness: `Main.java` copied into `/t1` and `/t2` is still run as
`java Main`. -/
theorem java_unit_name_is_stem_main :
    (run_java srcMainJava "/t1" "/t2" envOk).snd =
      [{ argv := ["javac", "/t2" ++ "/" ++ srcMainJava.base], cwd := "/t2" },
       { argv := ["java", pathStem srcMainJava.base], cwd := "/t1" }] :=
  (java_unit_name_is_stem srcMainJava "/t1" "/t2" envOk (by decide)).1

theorem lookup_unsupported (language : String)
    (h : language ∉ ["python", "c", "cpp", "java", "javascript"]) :
    supported_languages.lookup language = none := by
  simp only [List.mem_cons, List.not_mem_nil, or_false, not_or] at h
  obtain ⟨h1, h2, h3, h4, h5⟩ := h
  have b1 : (language == "python") = false := beq_eq_false_iff_ne.mpr h1
  have b2 : (language == "c") = false := beq_eq_false_iff_ne.mpr h2
  have b3 : (language == "cpp") = false := beq_eq_false_iff_ne.mpr h3
  have b4 : (language == "java") = false := beq_eq_false_iff_ne.mpr h4
  have b5 : (language == "javascript") = false := beq_eq_false_iff_ne.mpr h5
  simp [supported_languages, List.lookup, b1, b2, b3, b4, b5]

/-- C6: each of the five supported language ids dispatches `compile_code` and
`run_code` to its driver; any other id yields the explicit
unsupported-language failure outcome from both operations, with no command
issued. -/
theorem language_dispatch (src : Pth) (language content : String)
    (t t1 t2 : String) (env : ExecEnv) :
    (language ∉ ["python", "c", "cpp", "java", "javascript"] →
      compile_code src language t env = (unsupportedOutcome language, []) ∧
      run_code src language content t1 t2 env = (unsupportedOutcome language, []) ∧
      unsupportedOutcome language =
        { success := false, error := some ("Unsupported language: " ++ language) }) ∧
    compile_code src "java" t env = compile_java src t env ∧
    compile_code src "c" t env = compile_compiled src "c" t env ∧
    compile_code src "cpp" t env = compile_compiled src "cpp" t env ∧
    compile_code src "python" t env =
      ({ success := true,
         message := some "No compilation needed for interpreted language" }, []) ∧
    compile_code src "javascript" t env =
      ({ success := true,
         message := some "No compilation needed for interpreted language" }, []) ∧
    run_code src "java" content t1 t2 env = run_java src t1 t2 env ∧
    run_code src "c" content t1 t2 env = run_compiled src "c" t1 env ∧
    run_code src "cpp" content t1 t2 env = run_compiled src "cpp" t1 env ∧
    run_code src "python" content t1 t2 env = run_interpreted src "python" content env ∧
    run_code src "javascript" content t1 t2 env =
      run_interpreted src "javascript" content env := by
  refine ⟨?_, rfl, rfl, rfl, rfl, rfl, rfl, rfl, rfl, rfl, rfl⟩
  intro h
  have hl := lookup_unsupported language h
  refine ⟨?_, ?_, rfl⟩
  · simp [compile_code, hl]
  · simp [run_code, hl]

/-- C6 witness: the id "ruby" is rejected by both operations with the
explicit unsupported-language outcome. -/
theorem language_dispatch_ruby :
    run_code srcMainC "ruby" "" "/t1" "/t2" envOk = (unsupportedOutcome "ruby", []) :=
  ((language_dispatch srcMainC "ruby" "" "/t" "/t1" "/t2" envOk).1 (by decide)).2.1

theorem executeCommand_error_isSome (p : ProcBehavior)
    (h : (executeCommand p).success = false) :
    ((executeCommand p).error).isSome = true := by
  by_cases hs : p.spawnFails = true
  · simp only [executeCommand, if_pos hs]
    rfl
  · cases hef : p.execFails with
    | some m =>
      simp only [executeCommand, if_neg hs, hef]
      rfl
    | none =>
      simp only [executeCommand, if_neg hs, hef] at h ⊢
      rw [finishOutcome] at h ⊢
      by_cases hrc : p.exitCode = 0
      · rw [if_pos hrc] at h
        simp at h
      · rw [if_neg hrc]
        rfl

theorem run_python_error_isSome (content : String) (env : ExecEnv)
    (h : (run_python_interactive content env).success = false) :
    ((run_python_interactive content env).error).isSome = true := by
  by_cases h1 : env.readFails = true
  · simp only [run_python_interactive, if_pos h1]
    rfl
  · by_cases h2 : env.runProc.spawnFails = true
    · simp only [run_python_interactive, if_neg h1, if_pos h2]
      rfl
    · cases hef : env.runProc.execFails with
      | some m =>
        simp only [run_python_interactive, if_neg h1, if_neg h2, hef]
        rfl
      | none =>
        simp only [run_python_interactive, if_neg h1, if_neg h2, hef] at h ⊢
        by_cases h3 : env.runProc.duration > 10
        · simp only [if_pos h3]
          rfl
        · simp only [if_neg h3] at h ⊢
          rw [finishOutcome] at h ⊢
          by_cases hrc : env.runProc.exitCode = 0
          · rw [if_pos hrc] at h
            simp at h
          · rw [if_neg hrc]
            rfl

theorem compile_compiled_error_isSome (src : Pth) (language t : String) (env : ExecEnv)
    (h : (compile_compiled src language t env).fst.success = false) :
    ((compile_compiled src language t env).fst.error).isSome = true := by
  simp only [compile_compiled] at h ⊢
  by_cases hcs : (executeCommand env.compileProc).success = true
  · rw [if_pos hcs] at h
    simp at h
  · rw [if_neg hcs] at h ⊢
    exact executeCommand_error_isSome _ (by simpa using hcs)

theorem compile_java_error_isSome (src : Pth) (t : String) (env : ExecEnv)
    (h : (compile_java src t env).fst.success = false) :
    ((compile_java src t env).fst.error).isSome = true := by
  simp only [compile_java] at h ⊢
  by_cases hcs : (executeCommand env.compileProc).success = true
  · rw [if_pos hcs] at h
    simp at h
  · rw [if_neg hcs] at h ⊢
    exact executeCommand_error_isSome _ (by simpa using hcs)

theorem run_compiled_error_isSome (src : Pth) (language t : String) (env : ExecEnv)
    (h : (run_compiled src language t env).fst.success = false) :
    ((run_compiled src language t env).fst.error).isSome = true := by
  simp only [run_compiled] at h ⊢
  by_cases hcs : (compile_compiled src language t env).fst.success = true
  · rw [if_pos hcs] at h ⊢
    exact executeCommand_error_isSome _ h
  · rw [if_neg hcs] at h ⊢
    exact compile_compiled_error_isSome _ _ _ _ (by simpa using hcs)

theorem run_java_error_isSome (src : Pth) (t1 t2 : String) (env : ExecEnv)
    (h : (run_java src t1 t2 env).fst.success = false) :
    ((run_java src t1 t2 env).fst.error).isSome = true := by
  simp only [run_java] at h ⊢
  by_cases hcs : (compile_java { dir := t1, base := src.base } t2 env).fst.success = true
  · rw [if_pos hcs] at h ⊢
    exact executeCommand_error_isSome _ h
  · rw [if_neg hcs] at h ⊢
    exact compile_java_error_isSome _ _ _ (by simpa using hcs)

theorem run_interpreted_error_isSome (src : Pth) (language content : String)
    (env : ExecEnv)
    (h : (run_interpreted src language content env).fst.success = false) :
    ((run_interpreted src language content env).fst.error).isSome = true := by
  simp only [run_interpreted] at h ⊢
  by_cases hpy : language = "python"
  · rw [if_pos hpy] at h ⊢
    exact run_python_error_isSome content env h
  · rw [if_neg hpy] at h ⊢
    exact executeCommand_error_isSome env.runProc h

/-- C8: `compile_code` and `run_code` are total functions of the request and
the child behaviours; every failure outcome they return carries an error
detail, and a missing command binary produces the dedicated
`Command not found` outcome naming the binary. -/
theorem failures_are_tagged_outcomes (src : Pth) (language content : String)
    (t t1 t2 : String) (env : ExecEnv) (p : ProcBehavior) :
    ((compile_code src language t env).fst.success = false →
      ((compile_code src language t env).fst.error).isSome = true) ∧
    ((run_code src language content t1 t2 env).fst.success = false →
      ((run_code src language content t1 t2 env).fst.error).isSome = true) ∧
    (p.spawnFails = true →
      executeCommand p =
        { success := false,
          error := some ("Command not found: " ++ p.binaryName) }) := by
  refine ⟨?_, ?_, ?_⟩
  · intro h
    simp only [compile_code] at h ⊢
    by_cases h0 : (supported_languages.lookup language).isNone = true
    · rw [if_pos h0] at h ⊢
      rfl
    · rw [if_neg h0] at h ⊢
      by_cases h1 : language = "java"
      · rw [if_pos h1] at h ⊢
        exact compile_java_error_isSome _ _ _ h
      · rw [if_neg h1] at h ⊢
        by_cases h2 : language = "c" ∨ language = "cpp"
        · rw [if_pos h2] at h ⊢
          exact compile_compiled_error_isSome _ _ _ _ h
        · rw [if_neg h2] at h
          simp at h
  · intro h
    simp only [run_code] at h ⊢
    by_cases h0 : (supported_languages.lookup language).isNone = true
    · rw [if_pos h0] at h ⊢
      rfl
    · rw [if_neg h0] at h ⊢
      by_cases h1 : language = "java"
      · rw [if_pos h1] at h ⊢
        exact run_java_error_isSome _ _ _ _ h
      · rw [if_neg h1] at h ⊢
        by_cases h2 : language = "c" ∨ language = "cpp"
        · rw [if_pos h2] at h ⊢
          exact run_compiled_error_isSome _ _ _ _ h
        · rw [if_neg h2] at h ⊢
          exact run_interpreted_error_isSome _ _ _ _ h
  · intro hs
    rw [executeCommand, if_pos hs]

/-- A spawn failure for a missing `node` binary. -/
def procNoNode : ProcBehavior :=
  { exitCode := 0, duration := 0, stdoutLines := [], stderrLines := [],
    spawnFails := true, binaryName := "node" }

/-- C8 witness: a javascript run whose `node` binary is missing yields the
`Command not found` outcome naming `node`. -/
theorem failures_are_tagged_outcomes_node :
    executeCommand procNoNode =
      { success := false, error := some ("Command not found: " ++ "node") } :=
  (failures_are_tagged_outcomes srcMainC "javascript" "" "/t" "/t1" "/t2" envOk
    procNoNode).2.2 rfl

end UMLC
